import Mathlib

/-!
# Verification of `pitivi-timelinemedia.c` (PiTiVi timeline clip widget)

Shallow embedding of the clip-widget state machine implemented in
`src/pitivi-timelinemedia.c`, together with theorems settling the spec
claims about it.

Modelling conventions:
* GObject pointers to widgets are modelled as natural-number identifiers
  into a store `Nat → TimelineMedia`.
* `guint` arithmetic is modelled as `Nat` reduced modulo `2 ^ 32`;
  `gint64` values are modelled as `Int`.
* C strings are `String`s where only their contents matter (constructor
  name synthesis), and heap addresses `Nat` paired with a character heap
  `Nat → String` where pointer aliasing matters (the `memcpy` claim).
* GTK side effects that merely repaint are recorded as lists of widget
  identifiers passed to `pitivi_send_expose_event`; destructions are
  recorded as the ordered list of `gtk_widget_destroy` calls.
-/

/-- Track / layer kinds (`PitiviLayerType` and the cell `track_type`
values `PITIVI_AUDIO_TRACK`, `PITIVI_VIDEO_TRACK`, `PITIVI_EFFECTS_TRACK`,
`PITIVI_TRANSITION_TRACK`, `PITIVI_NO_TRACK`). -/
inductive PitiviLayerType
| audio
| video
| effects
| transition
| no_track
deriving DecidableEq, Repr

/-- Cursor tool modes consulted by the pointer handlers
(`PITIVI_CURSOR_SELECT`, `PITIVI_CURSOR_CUT`, and the rest collapsed). -/
inductive PitiviCursorType
| select
| cut
| other
deriving DecidableEq, Repr

/-! ## Composition-engine (GNL) objects -/

/-- State of a `GnlObject`: play interval `[start, stop]` and media
interval `[media_start, media_stop]`, all `gint64`. -/
structure GnlObject where
  start : Int
  stop : Int
  media_start : Int
  media_stop : Int
deriving DecidableEq, Repr

/-- `gnl_object_set_start_stop`: sets the play interval. -/
def gnl_object_set_start_stop (g : GnlObject) (s e : Int) : GnlObject :=
  { g with start := s, stop := e }

/-- `gnl_object_set_media_start_stop`: sets the media interval. -/
def gnl_object_set_media_start_stop (g : GnlObject) (s e : Int) : GnlObject :=
  { g with media_start := s, media_stop := e }

/-- Embeds `pitivi_timelinemedia_put` (pitivi-timelinemedia.c:216-223):
reads the media interval `(mstart, mstop)` of the owned gnlsource and
sets the play interval to `(start, start + mstop - mstart)`. -/
def pitivi_timelinemedia_put (g : GnlObject) (s : Int) : GnlObject :=
  gnl_object_set_start_stop g s (s + g.media_stop - g.media_start)

/-! ## Property access -/

/-- Result of a call to the widget's `get_property` vfunc; the only
observable outcome in the source is the `g_assert (FALSE)` branch. -/
inductive PropAccessResult
| assertion_failed
deriving DecidableEq, Repr

/-- `PROP_MEDIA_TYPE = 1` (first member of the property enumeration). -/
def PROP_MEDIA_TYPE : Nat := 1

/-- `PROP_SOURCEFILE = 2`. -/
def PROP_SOURCEFILE : Nat := 2

/-- `PROP_CELL = 3`. -/
def PROP_CELL : Nat := 3

/-- Embeds `pitivi_timelinemedia_get_property`
(pitivi-timelinemedia.c:425-439): the switch on `property_id` has no
case labels at all, only a `default:` branch running `g_assert (FALSE)`. -/
def pitivi_timelinemedia_get_property (property_id : Nat) : PropAccessResult :=
  match property_id with
  | _ => PropAccessResult.assertion_failed

/-! ## Construction (sourceitem / gnlsource part) -/

/-- A source descriptor (`PitiviSourceFile`) at the value level: the
fields the constructor reads (`filename`, `mediatype`, `length`,
`pipeline`). -/
structure PitiviSourceFile where
  filename : String
  mediatype : String
  length : Int
  pipeline : Nat
deriving DecidableEq, Repr

/-- A `GnlSource` as created by `gnl_source_new` plus its media interval
seeded by the constructor. -/
structure GnlSource where
  name : String
  pipeline : Nat
  media_start : Int
  media_stop : Int
deriving DecidableEq, Repr

/-- `gnl_source_new (name, pipeline)`; the media interval starts
unset (zero) until `gnl_object_set_media_start_stop` seeds it. -/
def gnl_source_new (name : String) (pipeline : Nat) : GnlSource :=
  { name := name, pipeline := pipeline, media_start := 0, media_stop := 0 }

/-- Seeds a `GnlSource`'s media interval (the `GNL_OBJECT` cast in the
constructor calls the same engine entry point). -/
def gnl_source_set_media_start_stop (g : GnlSource) (s e : Int) : GnlSource :=
  { g with media_start := s, media_stop := e }

/-- The `PitiviSourceItem` the constructor fills in: the copied source
file, the identifier, the audio flag, and (conditionally) the created
composition-engine object. -/
structure PitiviSourceItem where
  srcfile : PitiviSourceFile
  id : Nat
  isaudio : Bool
  gnlsource : Option GnlSource
deriving DecidableEq, Repr

/-- Embeds `pitivi_timelinemedia_constructor`
(pitivi-timelinemedia.c:268-298).  Parameters are the construct
properties the C constructor reads: the descriptor `sf`
(`private->sf`), the clip's `media_type` property (`private->media_type`,
not consulted by this code path), the containing cell's `track_type`
and its `nb_added` counter.  Steps: copy the descriptor, set
`id := cell->nb_added`, set `isaudio` iff the cell is an audio track,
and unless the cell is a transition track create a gnlsource named
`filename ++ "_" ++ mediatype ++ "_" ++ id` seeded to
`[0, srcfile->length]`. -/
def pitivi_timelinemedia_constructor (sf : PitiviSourceFile)
    (media_type : PitiviLayerType) (cell_track_type : PitiviLayerType)
    (cell_nb_added : Nat) : PitiviSourceItem :=
  let srcfile := sf
  let id := cell_nb_added
  let isaudio := cell_track_type = PitiviLayerType.audio
  if cell_track_type ≠ PitiviLayerType.transition then
    let name := sf.filename ++ "_" ++ sf.mediatype ++ "_" ++ toString id
    let g := gnl_source_new name sf.pipeline
    let g := gnl_source_set_media_start_stop g 0 sf.length
    { srcfile := srcfile, id := id, isaudio := isaudio, gnlsource := some g }
  else
    { srcfile := srcfile, id := id, isaudio := isaudio, gnlsource := none }

/-! ## The descriptor copy at construction (pointer level) -/

/-- The C struct `PitiviSourceFile` at the memory level: string and
handle fields (`filename`, `mediatype`, `thumbs_effect`) are pointers,
modelled as heap addresses; `length` and `pipeline` stay values. -/
structure PitiviSourceFileStruct where
  filename : Nat
  mediatype : Nat
  thumbs_effect : Nat
  length : Int
  pipeline : Nat
deriving DecidableEq, Repr

/-- Contents of the character buffers the pointer fields refer to. -/
abbrev CharHeap := Nat → String

/-- Overwrites the buffer at address `p`. -/
def heap_write (h : CharHeap) (p : Nat) (s : String) : CharHeap :=
  fun q => if q = p then s else h q

/-- Embeds the copy at pitivi-timelinemedia.c:281-283:
`self->sourceitem->srcfile = g_new0 (PitiviSourceFile, 1);`
`memcpy (self->sourceitem->srcfile, self->private->sf, sizeof (*self->private->sf));`
— a struct copy: every field, pointer fields included, is copied by
value into the freshly allocated struct. -/
def memcpy_srcfile (src : PitiviSourceFileStruct) : PitiviSourceFileStruct :=
  { filename := src.filename
    mediatype := src.mediatype
    thumbs_effect := src.thumbs_effect
    length := src.length
    pipeline := src.pipeline }

/-- The filename string the widget observes through its stored copy
(every later read, e.g. the constructor's `sprintf`, dereferences
`srcfile->filename`). -/
def widget_filename (h : CharHeap) (copy : PitiviSourceFileStruct) : String :=
  h copy.filename

/-! ## Widget state and the widget store -/

/-- The per-widget state a `PitiviTimelineMedia` carries that the
claims are about: the public `selected` and `linked` fields, whether
`gtk_widget_destroy` has been called on it, its allocation (`x`,
`width`), the `cell` construct property, the layout it is placed in
(`parent`), and `sourceitem->id`. -/
structure TimelineMedia where
  selected : Bool
  linked : Option Nat
  destroyed : Bool
  x : Nat
  width : Nat
  cell : Nat
  parent : Nat
  item_id : Nat
deriving DecidableEq, Repr

/-- A store of widgets addressed by identifier (the pointer model). -/
abbrev Store := Nat → TimelineMedia

/-- Pointer write: replace the widget at identifier `i`. -/
def setMedia (st : Store) (i : Nat) (m : TimelineMedia) : Store :=
  fun j => if j = i then m else st j

/-! ## Signal handlers on the store -/

/-- Embeds `pitivi_timelinemedia_callb_deselect`
(pitivi-timelinemedia.c:615-620): `self->selected = FALSE;` then one
`pitivi_send_expose_event (self)`.  Returns the new store and the list
of widgets repainted. -/
def pitivi_timelinemedia_callb_deselect (st : Store) (self : Nat) :
    Store × List Nat :=
  (setMedia st self { st self with selected := false }, [self])

/-- Embeds `pitivi_timelinemedia_callb_dissociate`
(pitivi-timelinemedia.c:622-633): guarded by `self->linked` and then
`self->selected`; clears the sibling's `selected`, repaints the
sibling, and nulls `linked` on both sides, in source order. -/
def pitivi_timelinemedia_callb_dissociate (st : Store) (self : Nat) :
    Store × List Nat :=
  match (st self).linked with
  | some l =>
    if (st self).selected then
      let st1 := setMedia st l { st l with selected := false }
      let st2 := setMedia st1 l { st1 l with linked := none }
      let st3 := setMedia st2 self { st2 self with linked := none }
      (st3, [l])
    else (st, [])
  | none => (st, [])

/-- Embeds `pitivi_timelinemedia_callb_destroy`
(pitivi-timelinemedia.c:635-644): if `self->selected`, call
`gtk_widget_destroy` on `self->linked` when present and then on
`self`.  `gtk_widget_destroy` is modelled as setting `destroyed`; the
second component records the destroy calls in order. -/
def pitivi_timelinemedia_callb_destroy (st : Store) (self : Nat) :
    Store × List Nat :=
  if (st self).selected then
    match (st self).linked with
    | some l =>
      let st1 := setMedia st l { st l with destroyed := true }
      let st2 := setMedia st1 self { st1 self with destroyed := true }
      (st2, [l, self])
    | none => (setMedia st self { st self with destroyed := true }, [self])
  else (st, [])

/-- Embeds `pitivi_timelinemedia_callb_key_release_event`
(pitivi-timelinemedia.c:646-653): calls
`pitivi_timelinemedia_callb_destroy (self, event)` ignoring the key in
the event, and returns `TRUE`. -/
def pitivi_timelinemedia_callb_key_release_event (st : Store) (self : Nat)
    (keyval : Nat) : (Store × List Nat) × Bool :=
  (pitivi_timelinemedia_callb_destroy st self, true)

/-- Modelled from the spec: the handler of the top-level window's
"deselect" signal (emitted at pitivi-timelinemedia.c:546) lives in the
timeline-window code, which is not part of this file.  Per spec §4.4
the external deselect signal "unconditionally clears `selected`" on
each clip so that the presser can claim exclusivity; we model the
broadcast as running that clearing on every widget. -/
def deselect_broadcast (st : Store) : Store :=
  fun j => { st j with selected := false }

/-- Embeds `pitivi_timelinemedia_button_press_event`
(pitivi-timelinemedia.c:531-569).  In select mode with the primary
button: if unselected, broadcast deselect, then set `self` (and
`self->linked` if present) selected; if selected, clear both.  Then
repaint `self`, and `self->linked` when present.  The secondary-button
branch only opens the popup menu (no widget-state change).  Returns
the store, the repaint list, and the handler's `TRUE`. -/
def pitivi_timelinemedia_button_press_event (st : Store) (self : Nat)
    (cursor : PitiviCursorType) (button : Nat) :
    Store × List Nat × Bool :=
  match cursor with
  | PitiviCursorType.select =>
    if button = 1 then
      let st1 :=
        if (st self).selected = false then
          let stb := deselect_broadcast st
          let stc := setMedia stb self { stb self with selected := true }
          match (stc self).linked with
          | some l => setMedia stc l { stc l with selected := true }
          | none => stc
        else
          let stc := setMedia st self { st self with selected := false }
          match (stc self).linked with
          | some l => setMedia stc l { stc l with selected := false }
          | none => stc
      let ex :=
        match (st1 self).linked with
        | some l => [self, l]
        | none => [self]
      (st1, ex, true)
    else
      (st, [], true)
  | _ => (st, [], true)

/-! ## Tracks (cells) and the split handler -/

/-- The part of `PitiviTimelineCellRenderer` the clip widget touches:
its `track_type`, its `linked_track` (the layout a mirrored split is
placed into), and the `nb_added[0]` insertion counter. -/
structure CellRenderer where
  track_type : PitiviLayerType
  linked_track : Nat
  nb_added : Nat
deriving DecidableEq, Repr

/-- A store of cells addressed by identifier. -/
abbrev CellStore := Nat → CellRenderer

/-- Pointer write: replace the cell at identifier `c`. -/
def setCell (cs : CellStore) (c : Nat) (m : CellRenderer) : CellStore :=
  fun j => if j = c then m else cs j

/-- A world: all widgets, all cells, and the next fresh widget
identifier handed out by `g_object_new`. -/
structure World where
  media : Store
  cells : CellStore
  next_id : Nat

/-- Embeds `pitivi_timelinemedia_new` (pitivi-timelinemedia.c:134-154)
at the widget-state level: `g_object_new` allocates a fresh widget whose
`instance_init` sets `selected := FALSE` (and no link), whose
constructor records `sourceitem->id = cell->nb_added[0]`, and then the
factory increments `cell->nb_added[0]`.  (The sourceitem / gnlsource
contents built by the constructor are modelled separately by
`pitivi_timelinemedia_constructor`.)  Returns the world and the new
widget's identifier. -/
def pitivi_timelinemedia_new (w : World) (cellId : Nat) : World × Nat :=
  let n := w.next_id
  let m : TimelineMedia :=
    { selected := false, linked := none, destroyed := false,
      x := 0, width := 0, cell := cellId, parent := cellId,
      item_id := (w.cells cellId).nb_added }
  ({ media := setMedia w.media n m,
     cells := setCell w.cells cellId
       ({ w.cells cellId with nb_added := (w.cells cellId).nb_added + 1 }),
     next_id := n + 1 }, n)

/-- `gtk_layout_put (layout, widget, posx, 0)`: the widget becomes a
child of `layout` positioned at `posx`. -/
def gtk_layout_put (w : World) (layoutId widgetId posx : Nat) : World :=
  { w with
      media := setMedia w.media widgetId
        ({ w.media widgetId with parent := layoutId, x := posx }) }

/-- `gtk_widget_set_size_request (widget, width, FIXED_HEIGHT)`:
records the requested width. -/
def gtk_widget_set_size_request (w : World) (widgetId widthv : Nat) : World :=
  { w with
      media := setMedia w.media widgetId
        ({ w.media widgetId with width := widthv }) }

/-- `2 ^ 32`, the modulus of `guint` arithmetic. -/
def guintMod : Nat := 2 ^ 32

/-- `pos = widget->allocation.x + event->x + 2` stored into a `guint`. -/
def cutPos (allocx x : Nat) : Nat := (allocx + x + 2) % guintMod

/-- `width = widget->allocation.width - (event->x + 2)` stored into a
`guint`: the signed difference reduced modulo `2 ^ 32`. -/
def cutWidth (allocw x : Nat) : Nat :=
  ((((allocw : Int) - ((x : Int) + 2)) % ((guintMod : Nat) : Int))).toNat

/-- Embeds `pitivi_timelinemedia_button_release_event`
(pitivi-timelinemedia.c:571-608).  In cut mode, with `X` the pointer
offset `event->x`: compute `pos` and `width`; create `media[0]` on the
parent container, place it at `pos`, size it to `width`; shrink `self`
to `event->x + 2`; bump the container counter; if `self->linked` is
set, mirror the split: create `media[1]` (cell argument is again the
container, per the source), place it at `pos` in the container's
`linked_track`, size it to `width`, shrink the sibling, cross-link the
two new halves, and bump the counter again.  The final
`g_signal_emit_by_name (container, "source-cut", ...)` targets the
container's handler, which is outside this file, and carries no
widget-state change here.  Returns the world and the handler's `TRUE`. -/
def pitivi_timelinemedia_button_release_event (w : World) (selfId : Nat)
    (cursor : PitiviCursorType) (X : Nat) : World × Bool :=
  match cursor with
  | PitiviCursorType.cut =>
    let container := (w.media selfId).parent
    let pos := cutPos (w.media selfId).x X
    let widthv := cutWidth (w.media selfId).width X
    let p1 := pitivi_timelinemedia_new w container
    let w1 := p1.1
    let m0 := p1.2
    let w2 := gtk_layout_put w1 container m0 pos
    let w3 := gtk_widget_set_size_request w2 m0 widthv
    let w4 := gtk_widget_set_size_request w3 selfId ((X + 2) % guintMod)
    let w5 :=
      { w4 with
          cells := setCell w4.cells container
            ({ w4.cells container with nb_added := (w4.cells container).nb_added + 1 }) }
    match (w5.media selfId).linked with
    | some l =>
      let p2 := pitivi_timelinemedia_new w5 container
      let w6 := p2.1
      let m1 := p2.2
      let w7 := gtk_layout_put w6 ((w6.cells container).linked_track) m1 pos
      let w8 := gtk_widget_set_size_request w7 m1 widthv
      let w9 := gtk_widget_set_size_request w8 l ((X + 2) % guintMod)
      let w10 :=
        { w9 with
            media := setMedia w9.media m1 ({ w9.media m1 with linked := some m0 }) }
      let w11 :=
        { w10 with
            media := setMedia w10.media m0 ({ w10.media m0 with linked := some m1 }) }
      let w12 :=
        { w11 with
            cells := setCell w11.cells container
              ({ w11.cells container with nb_added := (w11.cells container).nb_added + 1 }) }
      (w12, true)
    | none => (w5, true)
  | _ => (w, true)

/-! ## Concrete fixtures (used by counterexamples and witnesses) -/

/-- A widget value with the given selection state and link; all other
fields zeroed. -/
def mkMedia (sel : Bool) (lk : Option Nat) : TimelineMedia :=
  { selected := sel, linked := lk, destroyed := false,
    x := 0, width := 0, cell := 0, parent := 0, item_id := 0 }

/-- A store holding a mutually linked pair `0 ↔ 1`, both selected. -/
def pairStore : Store := fun j =>
  if j = 0 then mkMedia true (some 1)
  else if j = 1 then mkMedia true (some 0)
  else mkMedia false none

/-- A store holding a mutually linked pair `0 ↔ 1`, both unselected. -/
def unselStore : Store := fun j =>
  if j = 0 then mkMedia false (some 1)
  else if j = 1 then mkMedia false (some 0)
  else mkMedia false none

/-- An example source descriptor. -/
def sfEx : PitiviSourceFile :=
  { filename := "clip", mediatype := "video", length := 100, pipeline := 7 }

/-- An example memory-level descriptor: `filename` lives at address 0,
`mediatype` at 1, the thumbnail handle at 2. -/
def origDescr : PitiviSourceFileStruct :=
  { filename := 0, mediatype := 1, thumbs_effect := 2, length := 100, pipeline := 7 }

/-- An example heap for `origDescr`'s buffers. -/
def heapEx : CharHeap := fun n =>
  if n = 0 then "clip.avi" else if n = 1 then "video" else ""

/-- An example world: one unlinked widget `0` at `x = 10`, width `100`,
on cell `0`; next fresh identifier is `1`. -/
def worldEx : World :=
  { media := fun j =>
      if j = 0 then
        { selected := false, linked := none, destroyed := false,
          x := 10, width := 100, cell := 0, parent := 0, item_id := 0 }
      else mkMedia false none,
    cells := fun _ =>
      { track_type := PitiviLayerType.video, linked_track := 1, nb_added := 3 },
    next_id := 1 }

/-- An example world holding a mutually linked selected pair `0 ↔ 1`:
widget `0` on (video) cell `0`, widget `1` on (audio) cell `1`, the two
cells being each other's `linked_track`; next fresh identifier is `2`. -/
def worldLk : World :=
  { media := fun j =>
      if j = 0 then
        { selected := true, linked := some 1, destroyed := false,
          x := 10, width := 100, cell := 0, parent := 0, item_id := 0 }
      else if j = 1 then
        { selected := true, linked := some 0, destroyed := false,
          x := 10, width := 100, cell := 1, parent := 1, item_id := 0 }
      else mkMedia false none,
    cells := fun c =>
      if c = 0 then
        { track_type := PitiviLayerType.video, linked_track := 1, nb_added := 4 }
      else
        { track_type := PitiviLayerType.audio, linked_track := 0, nb_added := 4 },
    next_id := 2 }

/-! ## Helper lemmas -/

theorem setMedia_self (st : Store) (i : Nat) (m : TimelineMedia) :
    setMedia st i m i = m := by
  simp [setMedia]

theorem setMedia_ne (st : Store) (i : Nat) (m : TimelineMedia) (j : Nat)
    (h : j ≠ i) : setMedia st i m j = st j := by
  simp [setMedia, h]

/-! ## Claim theorems -/

/-- C9: for every gnl object with media interval `(mstart, mstop)` and
every position `s`, `pitivi_timelinemedia_put` sets the play interval
to `[s, s + (mstop - mstart)]`, so the play-interval length afterwards
equals `mstop - mstart`, and the media interval is unchanged. -/
theorem put_sets_play_interval_preserving_media (g : GnlObject) (s : Int) :
    (pitivi_timelinemedia_put g s).start = s ∧
    (pitivi_timelinemedia_put g s).stop = s + (g.media_stop - g.media_start) ∧
    (pitivi_timelinemedia_put g s).stop - (pitivi_timelinemedia_put g s).start
      = g.media_stop - g.media_start ∧
    (pitivi_timelinemedia_put g s).media_start = g.media_start ∧
    (pitivi_timelinemedia_put g s).media_stop = g.media_stop := by
  refine ⟨rfl, by simp [pitivi_timelinemedia_put, gnl_object_set_start_stop]; ring, ?_, rfl, rfl⟩
  simp [pitivi_timelinemedia_put, gnl_object_set_start_stop]
  ring

/-- C10: every property id, including the three installed read/write
properties `media_type`, `source_file` and `cell`, hits the
`g_assert (FALSE)` default branch of the get-property vfunc: there is
no successful branch at all. -/
theorem get_property_always_asserts :
    (∀ property_id : Nat,
        pitivi_timelinemedia_get_property property_id
          = PropAccessResult.assertion_failed) ∧
    pitivi_timelinemedia_get_property PROP_MEDIA_TYPE
      = PropAccessResult.assertion_failed ∧
    pitivi_timelinemedia_get_property PROP_SOURCEFILE
      = PropAccessResult.assertion_failed ∧
    pitivi_timelinemedia_get_property PROP_CELL
      = PropAccessResult.assertion_failed :=
  ⟨fun _ => rfl, rfl, rfl, rfl⟩

/-- C8: for every store, widget and key value, the key-release handler
performs exactly the delete operation (its state-and-destroy-list
effect is that of `pitivi_timelinemedia_callb_destroy`), ignores which
key was released, and reports the event as handled. -/
theorem key_release_equals_destroy (st : Store) (self : Nat) (k k2 : Nat) :
    pitivi_timelinemedia_callb_key_release_event st self k
      = (pitivi_timelinemedia_callb_destroy st self, true) ∧
    pitivi_timelinemedia_callb_key_release_event st self k
      = pitivi_timelinemedia_callb_key_release_event st self k2 ∧
    (pitivi_timelinemedia_callb_key_release_event st self k).2 = true :=
  ⟨rfl, rfl, rfl⟩

/-- C2, counterexample: the claim keys the creation decision to the
clip's `mediaType`, but the constructor tests the containing cell's
`track_type` (pitivi-timelinemedia.c:289).  Constructing a clip whose
`media_type` property is `transition` inside a video-track cell DOES
create a composition-engine object, and constructing a clip whose
`media_type` is `video` inside a transition-track cell does not. -/
theorem constructor_media_type_counterexample :
    ((pitivi_timelinemedia_constructor sfEx PitiviLayerType.transition
        PitiviLayerType.video 1).gnlsource).isSome = true ∧
    (pitivi_timelinemedia_constructor sfEx PitiviLayerType.video
        PitiviLayerType.transition 1).gnlsource = none := by
  exact ⟨rfl, rfl⟩

/-- C2, amended: for every construction, if the containing cell's
`track_type` is `transition` no composition-engine object is created;
for any other cell track type (whatever the clip's `media_type`
property is) exactly one is created, named
`filename ++ "_" ++ mediaKind ++ "_" ++ identifier`, with its media
start/stop seeded to `[0, descriptor.length]`. -/
theorem constructor_creates_gnlsource_iff_cell_not_transition
    (sf : PitiviSourceFile) (mt ct : PitiviLayerType) (n : Nat) :
    (ct = PitiviLayerType.transition →
      (pitivi_timelinemedia_constructor sf mt ct n).gnlsource = none) ∧
    (ct ≠ PitiviLayerType.transition →
      (pitivi_timelinemedia_constructor sf mt ct n).gnlsource
        = some { name := sf.filename ++ "_" ++ sf.mediatype ++ "_" ++ toString n,
                 pipeline := sf.pipeline,
                 media_start := 0,
                 media_stop := sf.length }) := by
  constructor
  · intro h
    subst h
    simp [pitivi_timelinemedia_constructor]
  · intro h
    simp [pitivi_timelinemedia_constructor, h, gnl_source_new,
      gnl_source_set_media_start_stop]

/-- C2, witness for the amended theorem at concrete inputs. -/
theorem constructor_creates_gnlsource_iff_cell_not_transition_witness :
    (pitivi_timelinemedia_constructor sfEx PitiviLayerType.video
        PitiviLayerType.transition 1).gnlsource = none ∧
    (pitivi_timelinemedia_constructor sfEx PitiviLayerType.video
        PitiviLayerType.video 1).gnlsource
      = some { name := sfEx.filename ++ "_" ++ sfEx.mediatype ++ "_" ++ toString 1,
               pipeline := sfEx.pipeline,
               media_start := 0,
               media_stop := sfEx.length } :=
  ⟨(constructor_creates_gnlsource_iff_cell_not_transition sfEx
      PitiviLayerType.video PitiviLayerType.transition 1).1 rfl,
   (constructor_creates_gnlsource_iff_cell_not_transition sfEx
      PitiviLayerType.video PitiviLayerType.video 1).2 (by decide)⟩

/-- C5, counterexample: the "deep copy" at construction is a `memcpy`
struct copy, so the `filename` pointer is shared with the original
descriptor: overwriting the character buffer the original descriptor's
`filename` points to changes the filename the widget observes through
its stored copy (from "clip.avi" to "mutated.avi"). -/
theorem memcpy_shallow_copy_counterexample :
    widget_filename heapEx (memcpy_srcfile origDescr) = "clip.avi" ∧
    widget_filename (heap_write heapEx origDescr.filename "mutated.avi")
        (memcpy_srcfile origDescr) = "mutated.avi" := by
  exact ⟨rfl, rfl⟩

/-- C5, amended: construction copies the descriptor struct field by
field (a shallow copy): value fields such as `length` are independent
copies, but string and handle fields (`filename`, `thumbs_effect`) are
copied as pointers equal to the original's, so a mutation of the
buffer the original's `filename` points to is visible through the
widget's stored copy. -/
theorem memcpy_copies_fields_but_shares_buffers
    (src : PitiviSourceFileStruct) (h : CharHeap) (s : String) :
    (memcpy_srcfile src).length = src.length ∧
    (memcpy_srcfile src).pipeline = src.pipeline ∧
    (memcpy_srcfile src).filename = src.filename ∧
    (memcpy_srcfile src).mediatype = src.mediatype ∧
    (memcpy_srcfile src).thumbs_effect = src.thumbs_effect ∧
    widget_filename (heap_write h src.filename s) (memcpy_srcfile src) = s := by
  refine ⟨rfl, rfl, rfl, rfl, rfl, ?_⟩
  simp [widget_filename, heap_write, memcpy_srcfile]

/-- C6: dissociate changes state only when the clip is selected and has
a linked sibling; then with sibling `b` it clears `b`'s `selected`,
repaints exactly `b`, and nulls `linked` on both sides, touching no
other widget; on an unselected or unlinked clip it is a no-op with no
state change and no repaint. -/
theorem dissociate_characterization (st : Store) (a b : Nat)
    (hL : (st a).linked = some b) (hS : (st a).selected = true)
    (hab : a ≠ b) :
    (pitivi_timelinemedia_callb_dissociate st a).1 b
      = { st b with selected := false, linked := none } ∧
    (pitivi_timelinemedia_callb_dissociate st a).1 a
      = { st a with linked := none } ∧
    (pitivi_timelinemedia_callb_dissociate st a).2 = [b] ∧
    (∀ c, c ≠ a → c ≠ b →
      (pitivi_timelinemedia_callb_dissociate st a).1 c = st c) ∧
    (∀ st2 a2, ((st2 a2).selected = false ∨ (st2 a2).linked = none) →
      pitivi_timelinemedia_callb_dissociate st2 a2 = (st2, [])) := by
  have hba : b ≠ a := Ne.symm hab
  refine ⟨?_, ?_, ?_, ?_, ?_⟩
  · simp [pitivi_timelinemedia_callb_dissociate, hL, hS, setMedia, hba]
  · simp [pitivi_timelinemedia_callb_dissociate, hL, hS, setMedia, hab]
  · simp [pitivi_timelinemedia_callb_dissociate, hL, hS]
  · intro c hca hcb
    simp [pitivi_timelinemedia_callb_dissociate, hL, hS, setMedia, hca, hcb]
  · intro st2 a2 hOr
    rcases h2 : (st2 a2).linked with _ | l
    · simp [pitivi_timelinemedia_callb_dissociate, h2]
    · rcases hOr with hsel | hnone
      · simp [pitivi_timelinemedia_callb_dissociate, h2, hsel]
      · rw [h2] at hnone
        exact absurd hnone (by simp)

/-- C6, witness: effective case on the selected linked pair `0 ↔ 1`,
no-op case on the unselected pair. -/
theorem dissociate_characterization_witness :
    (pitivi_timelinemedia_callb_dissociate pairStore 0).1 1
      = { pairStore 1 with selected := false, linked := none } ∧
    (pitivi_timelinemedia_callb_dissociate pairStore 0).2 = [1] ∧
    pitivi_timelinemedia_callb_dissociate unselStore 0 = (unselStore, []) := by
  have h := dissociate_characterization pairStore 0 1 (by decide) (by decide)
    (by decide)
  exact ⟨h.1, h.2.2.1, h.2.2.2.2 unselStore 0 (Or.inl (by decide))⟩

/-- C7: delete destroys exactly when `selected` is true: on a selected
clip with linked sibling `b` it issues the destroy calls `[b, a]`
(sibling first), marking both destroyed and touching no other widget;
on a selected unlinked clip it destroys just the clip; on an
unselected clip it is a no-op destroying nothing. -/
theorem destroy_characterization (st : Store) (a b : Nat)
    (hS : (st a).selected = true) (hL : (st a).linked = some b)
    (hab : a ≠ b) :
    (pitivi_timelinemedia_callb_destroy st a).2 = [b, a] ∧
    ((pitivi_timelinemedia_callb_destroy st a).1 a).destroyed = true ∧
    ((pitivi_timelinemedia_callb_destroy st a).1 b).destroyed = true ∧
    (∀ c, c ≠ a → c ≠ b →
      (pitivi_timelinemedia_callb_destroy st a).1 c = st c) ∧
    (∀ st2 a2, (st2 a2).selected = true → (st2 a2).linked = none →
      (pitivi_timelinemedia_callb_destroy st2 a2).2 = [a2] ∧
      ((pitivi_timelinemedia_callb_destroy st2 a2).1 a2).destroyed = true) ∧
    (∀ st2 a2, (st2 a2).selected = false →
      pitivi_timelinemedia_callb_destroy st2 a2 = (st2, [])) := by
  have hba : b ≠ a := Ne.symm hab
  refine ⟨?_, ?_, ?_, ?_, ?_, ?_⟩
  · simp [pitivi_timelinemedia_callb_destroy, hS, hL]
  · simp [pitivi_timelinemedia_callb_destroy, hS, hL, setMedia]
  · simp [pitivi_timelinemedia_callb_destroy, hS, hL, setMedia, hba]
  · intro c hca hcb
    simp [pitivi_timelinemedia_callb_destroy, hS, hL, setMedia, hca, hcb]
  · intro st2 a2 hsel hnone
    constructor
    · simp [pitivi_timelinemedia_callb_destroy, hsel, hnone]
    · simp [pitivi_timelinemedia_callb_destroy, hsel, hnone, setMedia]
  · intro st2 a2 hsel
    simp [pitivi_timelinemedia_callb_destroy, hsel]

/-- C7, witness: selected linked pair `0 ↔ 1` is destroyed sibling
first; the unselected pair is untouched. -/
theorem destroy_characterization_witness :
    (pitivi_timelinemedia_callb_destroy pairStore 0).2 = [1, 0] ∧
    ((pitivi_timelinemedia_callb_destroy pairStore 0).1 0).destroyed = true ∧
    ((pitivi_timelinemedia_callb_destroy pairStore 0).1 1).destroyed = true ∧
    pitivi_timelinemedia_callb_destroy unselStore 0 = (unselStore, []) := by
  have h := destroy_characterization pairStore 0 1 (by decide) (by decide)
    (by decide)
  exact ⟨h.1, h.2.1, h.2.2.1, h.2.2.2.2.2 unselStore 0 (by decide)⟩

/-- C1, counterexample: on the mutually linked pair `0 ↔ 1` with both
selected, running the external deselect handler on widget `0` leaves
widget `1` selected — the handler (pitivi-timelinemedia.c:615-620)
clears only `self->selected` and never touches the linked sibling, so
the claimed "both false" fails. -/
theorem deselect_ignores_sibling_counterexample :
    (pairStore 0).linked = some 1 ∧
    (pairStore 1).linked = some 0 ∧
    ((pitivi_timelinemedia_callb_deselect pairStore 0).1 0).selected = false ∧
    ((pitivi_timelinemedia_callb_deselect pairStore 0).1 1).selected = true := by
  exact ⟨rfl, rfl, by decide, by decide⟩

/-- C1, amended: for a linked pair `a.linked = b`, the external
deselect handler run on `a` clears `a.selected` but leaves `b`'s state
entirely unchanged (so it does not keep the pair synchronized by
itself); a primary-button press in select mode on `a` does keep the
pair synchronized: afterwards `a.selected = b.selected`. -/
theorem deselect_single_press_keeps_pair_equal (st : Store) (a b : Nat)
    (hL : (st a).linked = some b) (hab : a ≠ b) :
    ((pitivi_timelinemedia_callb_deselect st a).1 a).selected = false ∧
    (pitivi_timelinemedia_callb_deselect st a).1 b = st b ∧
    ((pitivi_timelinemedia_button_press_event st a
        PitiviCursorType.select 1).1 a).selected
      = ((pitivi_timelinemedia_button_press_event st a
        PitiviCursorType.select 1).1 b).selected := by
  have hba : b ≠ a := Ne.symm hab
  refine ⟨?_, ?_, ?_⟩
  · simp [pitivi_timelinemedia_callb_deselect, setMedia]
  · simp [pitivi_timelinemedia_callb_deselect, setMedia, hba]
  · cases hsel : (st a).selected with
    | false =>
      simp [pitivi_timelinemedia_button_press_event, hsel,
        deselect_broadcast, setMedia, hL, hab, hba]
    | true =>
      simp [pitivi_timelinemedia_button_press_event, hsel,
        setMedia, hL, hab, hba]

/-- C1, witness for the amended theorem on the selected pair `0 ↔ 1`. -/
theorem deselect_single_press_keeps_pair_equal_witness :
    ((pitivi_timelinemedia_callb_deselect pairStore 0).1 0).selected = false ∧
    (pitivi_timelinemedia_callb_deselect pairStore 0).1 1 = pairStore 1 ∧
    ((pitivi_timelinemedia_button_press_event pairStore 0
        PitiviCursorType.select 1).1 0).selected
      = ((pitivi_timelinemedia_button_press_event pairStore 0
        PitiviCursorType.select 1).1 1).selected :=
  deselect_single_press_keeps_pair_equal pairStore 0 1 (by decide) (by decide)

/-- Helper: result of a cut on an unlinked clip `a`, pointwise: `a` is
shrunk to `(X + 2) % 2^32`, the fresh widget `w.next_id` carries the
computed position and width, every other widget is untouched. -/
theorem release_cut_unlinked_pointwise (w : World) (a X : Nat)
    (ha : a < w.next_id) (hLk : (w.media a).linked = none) :
    (pitivi_timelinemedia_button_release_event w a PitiviCursorType.cut X).1.media a
      = { w.media a with width := (X + 2) % guintMod } ∧
    (pitivi_timelinemedia_button_release_event w a PitiviCursorType.cut X).1.media w.next_id
      = { selected := false, linked := none, destroyed := false,
          x := cutPos (w.media a).x X, width := cutWidth (w.media a).width X,
          cell := (w.media a).parent, parent := (w.media a).parent,
          item_id := (w.cells ((w.media a).parent)).nb_added } ∧
    (∀ c, c ≠ a → c ≠ w.next_id →
      (pitivi_timelinemedia_button_release_event w a PitiviCursorType.cut X).1.media c
        = w.media c) := by
  have h1 : ¬(a = w.next_id) := Nat.ne_of_lt ha
  have h2 : ¬(w.next_id = a) := fun h => h1 h.symm
  refine ⟨?_, ?_, ?_⟩
  · simp [pitivi_timelinemedia_button_release_event, pitivi_timelinemedia_new,
      gtk_layout_put, gtk_widget_set_size_request, setMedia, setCell, h1, h2, hLk]
  · simp [pitivi_timelinemedia_button_release_event, pitivi_timelinemedia_new,
      gtk_layout_put, gtk_widget_set_size_request, setMedia, setCell, h1, h2, hLk]
  · intro c hca hcn
    simp [pitivi_timelinemedia_button_release_event, pitivi_timelinemedia_new,
      gtk_layout_put, gtk_widget_set_size_request, setMedia, setCell, h1, h2, hLk,
      hca, hcn]

/-- Helper: result of a cut on a clip `a` linked to `l`, pointwise:
`a` and `l` are shrunk, the two fresh widgets `w.next_id` and
`w.next_id + 1` carry the computed geometry and are cross-linked, the
mirrored half is parented on the container's `linked_track`, and every
other widget is untouched. -/
theorem release_cut_linked_pointwise (w : World) (a l X : Nat)
    (ha : a < w.next_id) (hl : l < w.next_id) (hal : a ≠ l)
    (hLk : (w.media a).linked = some l) :
    (pitivi_timelinemedia_button_release_event w a PitiviCursorType.cut X).1.media a
      = { w.media a with width := (X + 2) % guintMod } ∧
    (pitivi_timelinemedia_button_release_event w a PitiviCursorType.cut X).1.media l
      = { w.media l with width := (X + 2) % guintMod } ∧
    (pitivi_timelinemedia_button_release_event w a PitiviCursorType.cut X).1.media w.next_id
      = { selected := false, linked := some (w.next_id + 1), destroyed := false,
          x := cutPos (w.media a).x X, width := cutWidth (w.media a).width X,
          cell := (w.media a).parent, parent := (w.media a).parent,
          item_id := (w.cells ((w.media a).parent)).nb_added } ∧
    (pitivi_timelinemedia_button_release_event w a PitiviCursorType.cut X).1.media
        (w.next_id + 1)
      = { selected := false, linked := some w.next_id, destroyed := false,
          x := cutPos (w.media a).x X, width := cutWidth (w.media a).width X,
          cell := (w.media a).parent,
          parent := (w.cells ((w.media a).parent)).linked_track,
          item_id := (w.cells ((w.media a).parent)).nb_added + 1 + 1 } ∧
    (∀ c, c ≠ a → c ≠ l → c ≠ w.next_id → c ≠ w.next_id + 1 →
      (pitivi_timelinemedia_button_release_event w a PitiviCursorType.cut X).1.media c
        = w.media c) := by
  have h1 : ¬(a = w.next_id) := Nat.ne_of_lt ha
  have h2 : ¬(w.next_id = a) := fun h => h1 h.symm
  have h3 : ¬(l = w.next_id) := Nat.ne_of_lt hl
  have h4 : ¬(w.next_id = l) := fun h => h3 h.symm
  have h5 : ¬(a = w.next_id + 1) := by omega
  have h6 : ¬(w.next_id + 1 = a) := by omega
  have h7 : ¬(l = w.next_id + 1) := by omega
  have h8 : ¬(w.next_id + 1 = l) := by omega
  have h9 : ¬(w.next_id = w.next_id + 1) := by omega
  have h10 : ¬(w.next_id + 1 = w.next_id) := by omega
  have h11 : ¬(a = l) := hal
  have h12 : ¬(l = a) := fun h => hal h.symm
  refine ⟨?_, ?_, ?_, ?_, ?_⟩
  · simp [pitivi_timelinemedia_button_release_event, pitivi_timelinemedia_new,
      gtk_layout_put, gtk_widget_set_size_request, setMedia, setCell,
      h1, h2, h3, h4, h5, h6, h7, h8, h9, h10, h11, h12, hLk]
  · simp [pitivi_timelinemedia_button_release_event, pitivi_timelinemedia_new,
      gtk_layout_put, gtk_widget_set_size_request, setMedia, setCell,
      h1, h2, h3, h4, h5, h6, h7, h8, h9, h10, h11, h12, hLk]
  · simp [pitivi_timelinemedia_button_release_event, pitivi_timelinemedia_new,
      gtk_layout_put, gtk_widget_set_size_request, setMedia, setCell,
      h1, h2, h3, h4, h5, h6, h7, h8, h9, h10, h11, h12, hLk]
  · simp [pitivi_timelinemedia_button_release_event, pitivi_timelinemedia_new,
      gtk_layout_put, gtk_widget_set_size_request, setMedia, setCell,
      h1, h2, h3, h4, h5, h6, h7, h8, h9, h10, h11, h12, hLk]
  · intro c hca hcl hcn hcn1
    simp [pitivi_timelinemedia_button_release_event, pitivi_timelinemedia_new,
      gtk_layout_put, gtk_widget_set_size_request, setMedia, setCell,
      h1, h2, h3, h4, h5, h6, h7, h8, h9, h10, h11, h12, hLk,
      hca, hcl, hcn, hcn1]

/-- Helper: the two guint widths produced by a cut sum to the original
width modulo `2 ^ 32`. -/
theorem cutWidth_sum (W X : Nat) :
    (((X + 2) % guintMod) + cutWidth W X) % guintMod = W % guintMod := by
  simp only [cutWidth, guintMod]
  omega

/-- C3: splitting a clip of width `W` at pointer offset `X` via a
button release in cut mode shrinks the original to `(X + 2)` (as a
`guint`, i.e. modulo `2 ^ 32`), gives the new clip width
`W - (X + 2)` reduced modulo `2 ^ 32`, makes the two widths sum to `W`
modulo `2 ^ 32`, and places the new clip at
`(widget x) + X + 2` modulo `2 ^ 32`. -/
theorem split_cut_widths_and_position (w : World) (a X : Nat)
    (ha : a < w.next_id)
    (hwf : ∀ b, (w.media a).linked = some b → b < w.next_id ∧ b ≠ a) :
    ((pitivi_timelinemedia_button_release_event w a
        PitiviCursorType.cut X).1.media a).width = (X + 2) % guintMod ∧
    ((pitivi_timelinemedia_button_release_event w a
        PitiviCursorType.cut X).1.media w.next_id).width
      = cutWidth (w.media a).width X ∧
    (((pitivi_timelinemedia_button_release_event w a
          PitiviCursorType.cut X).1.media a).width
        + ((pitivi_timelinemedia_button_release_event w a
          PitiviCursorType.cut X).1.media w.next_id).width) % guintMod
      = (w.media a).width % guintMod ∧
    ((pitivi_timelinemedia_button_release_event w a
        PitiviCursorType.cut X).1.media w.next_id).x
      = ((w.media a).x + X + 2) % guintMod := by
  rcases hLk : (w.media a).linked with _ | l
  · obtain ⟨e1, e2, _⟩ := release_cut_unlinked_pointwise w a X ha hLk
    refine ⟨?_, ?_, ?_, ?_⟩
    · rw [e1]
    · rw [e2]
    · rw [e1, e2]
      exact cutWidth_sum _ _
    · rw [e2]
      simp [cutPos]
  · obtain ⟨hlt, hne⟩ := hwf l hLk
    obtain ⟨e1, _, e3, _, _⟩ :=
      release_cut_linked_pointwise w a l X ha hlt (Ne.symm hne) hLk
    refine ⟨?_, ?_, ?_, ?_⟩
    · rw [e1]
    · rw [e3]
    · rw [e1, e3]
      exact cutWidth_sum _ _
    · rw [e3]
      simp [cutPos]

/-- C3, witness: cutting the 100-wide clip `0` of `worldEx` at offset
`5`. -/
theorem split_cut_widths_and_position_witness :
    ((pitivi_timelinemedia_button_release_event worldEx 0
        PitiviCursorType.cut 5).1.media 0).width = (5 + 2) % guintMod ∧
    ((pitivi_timelinemedia_button_release_event worldEx 0
        PitiviCursorType.cut 5).1.media 1).width
      = cutWidth (worldEx.media 0).width 5 ∧
    (((pitivi_timelinemedia_button_release_event worldEx 0
          PitiviCursorType.cut 5).1.media 0).width
        + ((pitivi_timelinemedia_button_release_event worldEx 0
          PitiviCursorType.cut 5).1.media 1).width) % guintMod
      = (worldEx.media 0).width % guintMod ∧
    ((pitivi_timelinemedia_button_release_event worldEx 0
        PitiviCursorType.cut 5).1.media 1).x
      = ((worldEx.media 0).x + 5 + 2) % guintMod :=
  split_cut_widths_and_position worldEx 0 5 (by decide)
    (by intro b hb; simp [worldEx] at hb)

/-- C4: splitting a clip `a` linked to sibling `l` performs the
mirrored split on the sibling's track (the second new half is parented
on the container's `linked_track`) and cross-links the two new halves
to each other — not to either original — while `a` and `l` keep their
mutual links, so the linked relation stays mutually symmetric. -/
theorem split_relinks_new_halves (w : World) (a l X : Nat)
    (ha : a < w.next_id) (hl : l < w.next_id) (hal : a ≠ l)
    (hLk : (w.media a).linked = some l)
    (hSym : (w.media l).linked = some a) :
    ((pitivi_timelinemedia_button_release_event w a
        PitiviCursorType.cut X).1.media w.next_id).linked
      = some (w.next_id + 1) ∧
    ((pitivi_timelinemedia_button_release_event w a
        PitiviCursorType.cut X).1.media (w.next_id + 1)).linked
      = some w.next_id ∧
    ((pitivi_timelinemedia_button_release_event w a
        PitiviCursorType.cut X).1.media w.next_id).linked ≠ some a ∧
    ((pitivi_timelinemedia_button_release_event w a
        PitiviCursorType.cut X).1.media (w.next_id + 1)).linked ≠ some l ∧
    ((pitivi_timelinemedia_button_release_event w a
        PitiviCursorType.cut X).1.media a).linked = some l ∧
    ((pitivi_timelinemedia_button_release_event w a
        PitiviCursorType.cut X).1.media l).linked = some a ∧
    ((pitivi_timelinemedia_button_release_event w a
        PitiviCursorType.cut X).1.media (w.next_id + 1)).parent
      = (w.cells ((w.media a).parent)).linked_track := by
  obtain ⟨e1, e2, e3, e4, _⟩ :=
    release_cut_linked_pointwise w a l X ha hl hal hLk
  refine ⟨?_, ?_, ?_, ?_, ?_, ?_, ?_⟩
  · rw [e3]
  · rw [e4]
  · rw [e3]
    simp
    omega
  · rw [e4]
    simp
    omega
  · rw [e1]
    exact hLk
  · rw [e2]
    exact hSym
  · rw [e4]

/-- C4, witness: cutting clip `0` of the linked pair `0 ↔ 1` of
`worldLk` at offset `5` creates the cross-linked halves `2 ↔ 3`. -/
theorem split_relinks_new_halves_witness :
    ((pitivi_timelinemedia_button_release_event worldLk 0
        PitiviCursorType.cut 5).1.media 2).linked = some 3 ∧
    ((pitivi_timelinemedia_button_release_event worldLk 0
        PitiviCursorType.cut 5).1.media 3).linked = some 2 ∧
    ((pitivi_timelinemedia_button_release_event worldLk 0
        PitiviCursorType.cut 5).1.media 2).linked ≠ some 0 ∧
    ((pitivi_timelinemedia_button_release_event worldLk 0
        PitiviCursorType.cut 5).1.media 3).linked ≠ some 1 ∧
    ((pitivi_timelinemedia_button_release_event worldLk 0
        PitiviCursorType.cut 5).1.media 0).linked = some 1 ∧
    ((pitivi_timelinemedia_button_release_event worldLk 0
        PitiviCursorType.cut 5).1.media 1).linked = some 0 ∧
    ((pitivi_timelinemedia_button_release_event worldLk 0
        PitiviCursorType.cut 5).1.media 3).parent
      = (worldLk.cells ((worldLk.media 0).parent)).linked_track :=
  split_relinks_new_halves worldLk 0 1 5 (by decide) (by decide) (by decide)
    (by decide) (by decide)
